import Mathlib

/-!
Formal model of the multi-viewport graphics-context lifecycle manager in
`crates/eframe/src/native/glow_integration.rs`: the viewport registry, the
reconciliation pass (`handle_viewport_output` / `initialize_or_update_viewport`,
embedded here as `init_or_update_viewport`), the suspend/resume state machine
(`on_suspend` / `on_resume` / `init_viewport`), the per-window render driver
(`run_ui_and_paint`) and the reentrant immediate render path
(`render_immediate_viewport`).

Native handles are embedded as follows: windows are records carrying the data
the code reads back (`id`, `inner_size`, minimize/maximize state); GL surfaces
are opaque tokens (`Nat`), allocated from a counter; the shared GL context is
the pair of the `current_gl_context` slot (the token of the surface it is
current against, if any) and the `not_current_gl_context` spare slot, exactly
mirroring the two `Option` fields of `GlutinWindowContext`. Fallible native
calls (window creation, surface creation, make-current, make-not-current) are
driven by a `NativeOracle` of success flags; Rust `?`-propagation becomes an
`Option GlFail` error component and `unwrap`/`expect`/indexing panics become
`GlFail.panic`. Every `(width, height)` pair handed to surface creation or
surface resize is also recorded in a `surface_calls` trace so that the size
clamping behaviour can be stated.
-/

set_option linter.unusedVariables false

abbrev ViewportId := Nat

def ViewportId.ROOT : ViewportId := 0

/-- Pair of a viewport's own id and its parent's id (`ViewportIdPair`). -/
structure ViewportIdPair where
  thisId : ViewportId
  parent : ViewportId
deriving DecidableEq, Repr

inductive ViewportClass
  | Root
  | Deferred
  | Immediate
deriving DecidableEq, Repr

/-- Incremental per-viewport directives (`ViewportCommand`), the already-diffed
commands consumed by `process_viewport_commands`. Only the constructors the
model needs are distinguished. -/
inductive ViewportCommand
  | setTitle (t : String)
  | screenshot
  | close
  | focus
  | other
deriving DecidableEq, Repr

inductive ViewportEvent
  | Close
deriving DecidableEq, Repr

/-- Observed runtime state of a viewport (`ViewportInfo`). -/
structure ViewportInfo where
  minimized : Option Bool
  maximized : Option Bool
  focused : Option Bool
  events : List ViewportEvent
deriving DecidableEq, Repr

def ViewportInfo.empty : ViewportInfo :=
  { minimized := none, maximized := none, focused := none, events := [] }

/-- Declarative desired properties of a viewport (`ViewportBuilder`), reduced
to one representative patchable property (`title`), one property requiring
destroy+recreate (`transparent`), and the inheritable `icon`. -/
structure ViewportBuilder where
  title : Option String
  transparent : Option Bool
  icon : Option Nat
deriving DecidableEq, Repr

/-- A native window handle together with the data the code reads back from it. -/
structure Window where
  id : Nat
  inner_size : Nat × Nat
  minimized : Option Bool
  maximized : Bool
deriving DecidableEq, Repr

/-- One registry entry (`Viewport`). `viewport_ui_cb` records the presence of
the stored deferred render callback, `gl_surface` holds the token of the live
surface, `egui_winit` the presence of the per-viewport input-adapter state. -/
structure Viewport where
  ids : ViewportIdPair
  cls : ViewportClass
  builder : ViewportBuilder
  info : ViewportInfo
  screenshot_requested : Bool
  viewport_ui_cb : Bool
  gl_surface : Option Nat
  window : Option Window
  egui_winit : Option Unit
deriving DecidableEq, Repr

abbrev Registry := List (ViewportId × Viewport)

/-- The state of `GlutinWindowContext`: the single shared context (at most one
of `current_gl_context` / `not_current_gl_context` style slots holds it; the
`current_gl_context` field names the surface token it is current against), the
viewport registry and the two id lookup tables. `next_surface_id` /
`next_window_id` allocate fresh native handles and `surface_calls` is the trace
of sizes handed to the native surface API. -/
structure GlutinWindowContext where
  current_gl_context : Option Nat
  not_current_gl_context : Bool
  viewports : Registry
  viewport_from_window : List (Nat × ViewportId)
  window_from_viewport : List (ViewportId × Nat)
  focused_viewport : Option ViewportId
  next_surface_id : Nat
  next_window_id : Nat
  surface_calls : List (Nat × Nat)
deriving DecidableEq, Repr

/-- The declarative per-viewport output of one frame (`ViewportOutput`). -/
structure ViewportOutput where
  parent : ViewportId
  cls : ViewportClass
  builder : ViewportBuilder
  viewport_ui_cb : Bool
  commands : List ViewportCommand
deriving DecidableEq, Repr

/-- The part of `egui::FullOutput` this subsystem consumes. -/
structure FullOutput where
  viewport_output : List (ViewportId × ViewportOutput)
deriving DecidableEq, Repr

/-- Success flags and read-back data for the fallible native calls. -/
structure NativeOracle where
  finalizeWindowOk : Bool
  createSurfaceOk : Bool
  makeCurrentOk : Bool
  makeNotCurrentOk : Bool
  setSwapIntervalOk : Bool
  windowSize : Nat × Nat
  windowMinimized : Option Bool
  windowMaximized : Bool
deriving DecidableEq, Repr

/-- How a fallible embedded operation ends: a propagated `Result` error, or a
Rust panic (`unwrap` / `expect` / map indexing on a missing key). -/
inductive GlFail
  | error
  | panic
deriving DecidableEq, Repr

inductive EventResult
  | Wait
  | RepaintNow (window_id : Nat)
  | RepaintNext (window_id : Nat)
  | Exit
deriving DecidableEq, Repr

inductive Outcome
  | panicked
  | normal (r : EventResult)
deriving DecidableEq, Repr

/-- Result of one per-window render-driver call: the final state, whether the
backbuffer was cleared and painted, whether buffers were swapped, and how the
call ended. -/
structure RunResult where
  state : GlutinWindowContext
  painted : Bool
  swapped : Bool
  outcome : Outcome
deriving DecidableEq, Repr

/-- Result of one immediate-viewport render call; `switched` records whether
the call moved context currency to the immediate viewport's surface. -/
structure ImmResult where
  state : GlutinWindowContext
  painted : Bool
  swapped : Bool
  switched : Bool
  panicked : Bool
deriving DecidableEq, Repr

/-! ## Association-list primitives

The registry (`ViewportIdMap`) and the two lookup tables (`HashMap`) are
embedded as association lists; insertion order stands in for the map's
iteration order. -/

def lookupA {κ α : Type} [DecidableEq κ] : List (κ × α) → κ → Option α
  | [], _ => none
  | (k, v) :: rest, k' => if k = k' then some v else lookupA rest k'

def updateA {κ α : Type} [DecidableEq κ] : List (κ × α) → κ → α → List (κ × α)
  | [], _, _ => []
  | (k, v) :: rest, k', v' => if k = k' then (k, v') :: rest else (k, v) :: updateA rest k' v'

def insertA {κ α : Type} [DecidableEq κ] (l : List (κ × α)) (k : κ) (v : α) : List (κ × α) :=
  if (lookupA l k).isSome then updateA l k v else l ++ [(k, v)]

def hasKey {κ α : Type} [DecidableEq κ] (l : List (κ × α)) (k : κ) : Bool :=
  (lookupA l k).isSome

theorem hasKey_updateA {κ α : Type} [DecidableEq κ] (l : List (κ × α)) (k k' : κ) (v : α) :
    hasKey (updateA l k v) k' = hasKey l k' := by
  induction l with
  | nil => rfl
  | cons p rest ih =>
    obtain ⟨pk, pv⟩ := p
    by_cases h1 : pk = k
    · rw [updateA, if_pos h1]
      unfold hasKey lookupA
      by_cases h2 : pk = k' <;> simp [h2]
    · rw [updateA, if_neg h1]
      unfold hasKey lookupA
      by_cases h2 : pk = k'
      · simp [h2]
      · simp only [if_neg h2]
        exact ih

theorem lookupA_updateA_ne {κ α : Type} [DecidableEq κ] (l : List (κ × α)) (k k' : κ) (v : α)
    (h : k ≠ k') : lookupA (updateA l k v) k' = lookupA l k' := by
  induction l with
  | nil => rfl
  | cons p rest ih =>
    obtain ⟨pk, pv⟩ := p
    by_cases h1 : pk = k
    · have h2 : ¬ pk = k' := fun hc => h (h1 ▸ hc)
      rw [updateA, if_pos h1]
      unfold lookupA
      simp [h2]
    · rw [updateA, if_neg h1]
      unfold lookupA
      by_cases h2 : pk = k' <;> simp [h2, ih]

theorem lookupA_updateA_self {κ α : Type} [DecidableEq κ] (l : List (κ × α)) (k : κ) (v : α)
    (h : hasKey l k = true) : lookupA (updateA l k v) k = some v := by
  induction l with
  | nil => simp [hasKey, lookupA] at h
  | cons p rest ih =>
    obtain ⟨pk, pv⟩ := p
    by_cases h1 : pk = k
    · simp [updateA, lookupA, h1]
    · simp [hasKey, lookupA, h1] at h
      simp [updateA, lookupA, h1, ih h]

theorem lookupA_append_single {κ α : Type} [DecidableEq κ] (l : List (κ × α)) (k k' : κ) (v : α) :
    lookupA (l ++ [(k, v)]) k' =
      match lookupA l k' with
      | some x => some x
      | none => if k = k' then some v else none := by
  induction l with
  | nil => simp [lookupA]
  | cons p rest ih =>
    obtain ⟨pk, pv⟩ := p
    by_cases h1 : pk = k' <;> simp [lookupA, h1, ih]

theorem hasKey_append_single {κ α : Type} [DecidableEq κ] (l : List (κ × α)) (k k' : κ) (v : α) :
    hasKey (l ++ [(k, v)]) k' = (hasKey l k' || decide (k = k')) := by
  unfold hasKey
  rw [lookupA_append_single]
  cases h : lookupA l k' with
  | none => by_cases h2 : k = k' <;> simp [h2]
  | some x => simp

theorem lookupA_filter_key {κ α : Type} [DecidableEq κ] (l : List (κ × α)) (q : κ → Bool) (k : κ) :
    lookupA (l.filter (fun p => q p.1)) k = if q k = true then lookupA l k else none := by
  induction l with
  | nil => simp [lookupA]
  | cons p rest ih =>
    obtain ⟨pk, pv⟩ := p
    by_cases h1 : pk = k
    · subst h1
      by_cases hq : q pk = true <;> simp [List.filter, lookupA, hq, ih]
    · by_cases hq : q pk = true <;> simp [List.filter, lookupA, hq, h1, ih]

theorem lookupA_map_val {κ α β : Type} [DecidableEq κ] (l : List (κ × α)) (f : α → β) (k : κ) :
    lookupA (l.map (fun p => (p.1, f p.2))) k = (lookupA l k).map f := by
  induction l with
  | nil => rfl
  | cons p rest ih =>
    obtain ⟨pk, pv⟩ := p
    by_cases h1 : pk = k <;> simp [lookupA, h1, ih]

theorem hasKey_of_mem_keys {κ α : Type} [DecidableEq κ] (l : List (κ × α)) (k : κ)
    (h : k ∈ l.map Prod.fst) : hasKey l k = true := by
  induction l with
  | nil => simp at h
  | cons p rest ih =>
    obtain ⟨pk, pv⟩ := p
    by_cases h1 : pk = k
    · simp [hasKey, lookupA, h1]
    · have h' : k ∈ rest.map Prod.fst := by
        rcases List.mem_cons.mp h with hc | hc
        · exact absurd hc.symm h1
        · exact hc
      unfold hasKey lookupA
      simp only [if_neg h1]
      exact ih h'

/-! ## Collaborator functions not under the embedded source file -/

def atLeast (n m : Nat) : Nat := max n m

/-- The `NonZeroU32::new` constructor: `none` exactly when the argument is zero. -/
def nonZeroU32New (n : Nat) : Option Nat :=
  if n = 0 then none else some n

/-- Modelled from the spec: `ViewportBuilder::patch` lives in the egui crate,
not under the embedded source. The diff yields incremental commands for
patchable properties (here `title`) and a must-recreate flag for properties
that cannot be changed post-creation (here `transparent`); the stored builder
takes the new values, and an unset new value leaves the stored one in place. -/
def ViewportBuilder.patch (old new : ViewportBuilder) :
    ViewportBuilder × List ViewportCommand × Bool :=
  let tp : Option String × List ViewportCommand :=
    match new.title with
    | some t => if old.title = some t then (old.title, []) else (some t, [ViewportCommand.setTitle t])
    | none => (old.title, [])
  let tr : Option Bool × Bool :=
    match new.transparent with
    | some b => if old.transparent = some b then (old.transparent, false) else (some b, true)
    | none => (old.transparent, false)
  let icon2 : Option Nat :=
    match new.icon with
    | some i => some i
    | none => old.icon
  ({ title := tp.1, transparent := tr.1, icon := icon2 }, tp.2, tr.2)

/-- Modelled from the spec: `egui_winit::process_viewport_commands` is not
under the embedded source. Incremental, already-diffed directives are applied
to the live window, updating `info` (queueing close events, focus state) and
setting the pending screenshot flag. It neither creates nor destroys windows,
surfaces or registry entries. -/
def process_viewport_commands (info : ViewportInfo) (commands : List ViewportCommand)
    (is_viewport_focused : Bool) (screenshot_requested : Bool) : ViewportInfo × Bool :=
  commands.foldl
    (fun acc c =>
      match c with
      | ViewportCommand.screenshot => (acc.1, true)
      | ViewportCommand.close => ({ acc.1 with events := acc.1.events ++ [ViewportEvent.Close] }, acc.2)
      | ViewportCommand.focus => ({ acc.1 with focused := some true }, acc.2)
      | _ => acc)
    (info, screenshot_requested)

/-- `Viewport::update_viewport_info` (source lines 1172-1181): returns
unchanged when window or input-adapter state is absent; the refresh of the
observed info from the native window is the egui_winit part, modelled from the
spec as reading back minimize/maximize state. -/
def Viewport.update_viewport_info (vp : Viewport) : Viewport :=
  match vp.window, vp.egui_winit with
  | some w, some _ =>
      { vp with info := { vp.info with minimized := w.minimized, maximized := some w.maximized } }
  | _, _ => vp

/-! ## The reconciliation engine -/

/-- `initialize_or_update_viewport` (source lines 1184-1252): inherit the
parent icon when unset, insert a fresh windowless viewport for a new id, or
patch an existing one; on a must-recreate diff drop the window and the
input-adapter state (the source does NOT drop `gl_surface` here), otherwise
apply the delta commands against a live window. -/
def init_or_update_viewport (viewports : Registry) (ids : ViewportIdPair)
    (cls : ViewportClass) (builder : ViewportBuilder) (viewport_ui_cb : Bool)
    (focused_viewport : Option ViewportId) : Registry :=
  let builder :=
    if builder.icon.isNone then
      { builder with icon := (lookupA viewports ids.parent).bind (fun vp => vp.builder.icon) }
    else builder
  match lookupA viewports ids.thisId with
  | none =>
      viewports ++ [(ids.thisId,
        { ids := ids
          cls := cls
          builder := builder
          info := ViewportInfo.empty
          screenshot_requested := false
          viewport_ui_cb := viewport_ui_cb
          gl_surface := none
          window := none
          egui_winit := none })]
  | some viewport =>
      let viewport :=
        { viewport with
          ids := { thisId := viewport.ids.thisId, parent := ids.parent }
          cls := cls
          viewport_ui_cb := viewport_ui_cb }
      let pr := ViewportBuilder.patch viewport.builder builder
      let viewport := { viewport with builder := pr.1 }
      let viewport :=
        if pr.2.2 then
          { viewport with window := none, egui_winit := none }
        else
          match viewport.window with
          | some _ =>
              let pc := process_viewport_commands viewport.info pr.2.1
                (focused_viewport == some ids.thisId) viewport.screenshot_requested
              { viewport with info := pc.1, screenshot_requested := pc.2 }
          | none => viewport
      updateA viewports ids.thisId viewport

/-- One iteration of the `handle_viewport_output` loop, acting on the registry:
reconcile the entry, then run this frame's commands against its live window. -/
def handle_one_viewports (focused : Option ViewportId) (vps : Registry)
    (e : ViewportId × ViewportOutput) : Registry :=
  let viewport_id := e.1
  let vo := e.2
  let vps := init_or_update_viewport vps
    { thisId := viewport_id, parent := vo.parent } vo.cls vo.builder vo.viewport_ui_cb focused
  match lookupA vps viewport_id with
  | some viewport =>
      match viewport.window with
      | some _ =>
          let pc := process_viewport_commands viewport.info vo.commands
            (focused == some viewport_id) viewport.screenshot_requested
          updateA vps viewport_id { viewport with info := pc.1, screenshot_requested := pc.2 }
      | none => vps
  | none => vps

/-- `GlutinWindowContext::handle_viewport_output` (source lines 1115-1168):
process every entry of the frame's declarative viewport-output map in order,
then garbage-collect registry entries and lookup-table rows whose id was not in
the map. The `retain` has no special case for the root id. -/
def GlutinWindowContext.handle_viewport_output (s : GlutinWindowContext)
    (viewport_output : List (ViewportId × ViewportOutput)) : GlutinWindowContext :=
  let active_viewports_ids := viewport_output.map Prod.fst
  let vps := viewport_output.foldl (handle_one_viewports s.focused_viewport) s.viewports
  { s with
    viewports := vps.filter (fun p => active_viewports_ids.contains p.1)
    viewport_from_window := s.viewport_from_window.filter (fun p => active_viewports_ids.contains p.2)
    window_from_viewport := s.window_from_viewport.filter (fun p => active_viewports_ids.contains p.1) }

/-! ## Lifecycle: suspend / resume / init_viewport / resize -/

/-- `GlutinWindowContext::on_suspend` (source lines 1057-1070): drop surface
and window of every registered viewport, then demote the context to
not-current; the demotion failure propagates as an error but the viewport
fields are already cleared, and the current slot was already taken. -/
def Viewport.drop_native (vp : Viewport) : Viewport :=
  { vp with gl_surface := none, window := none }

def GlutinWindowContext.on_suspend (s : GlutinWindowContext) (o : NativeOracle) :
    GlutinWindowContext × Option GlFail :=
  let s := { s with
    viewports := s.viewports.map
      (fun (p : ViewportId × Viewport) => (p.1, p.2.drop_native)) }
  match s.current_gl_context with
  | some _ =>
      if o.makeNotCurrentOk then
        ({ s with current_gl_context := none, not_current_gl_context := true }, none)
      else
        ({ s with current_gl_context := none }, some GlFail.error)
  | none => (s, none)

/-- Tail of `init_viewport` after a successful make-current (source lines
1026-1051): keep-or-create the input-adapter state, store the surface, store
the now-current context, and register the two window-id lookups. -/
def GlutinWindowContext.init_viewport_finish (s : GlutinWindowContext)
    (viewport_id : ViewportId) (vp : Viewport) (w : Window) (surfaceId : Nat) :
    GlutinWindowContext × Option GlFail :=
  let vp := { vp with egui_winit := some (), gl_surface := some surfaceId }
  ({ s with
      current_gl_context := some surfaceId
      viewports := updateA s.viewports viewport_id vp
      viewport_from_window := insertA s.viewport_from_window w.id vp.ids.thisId
      window_from_viewport := insertA s.window_from_viewport vp.ids.thisId w.id }, none)

/-- Surface-creation half of `init_viewport` (source lines 996-1051): clamp the
window's inner size to at least 1x1 through `NonZeroU32::new(..).unwrap()`,
create the surface, then run the context-switch protocol (spare not-current
context if available, else demote the current one, with `unwrap` panics) and
make the new surface current. -/
def GlutinWindowContext.init_viewport_surface (s : GlutinWindowContext)
    (viewport_id : ViewportId) (vp : Viewport) (w : Window) (o : NativeOracle) :
    GlutinWindowContext × Option GlFail :=
  match nonZeroU32New (atLeast w.inner_size.1 1), nonZeroU32New (atLeast w.inner_size.2 1) with
  | some width_px, some height_px =>
      let s := { s with surface_calls := s.surface_calls ++ [(width_px, height_px)] }
      if o.createSurfaceOk then
        let surfaceId := s.next_surface_id
        let s := { s with next_surface_id := s.next_surface_id + 1 }
        if s.not_current_gl_context then
          let s := { s with not_current_gl_context := false }
          if o.makeCurrentOk then
            s.init_viewport_finish viewport_id vp w surfaceId
          else (s, some GlFail.error)
        else
          match s.current_gl_context with
          | none => (s, some GlFail.panic)
          | some _ =>
              let s := { s with current_gl_context := none }
              if o.makeNotCurrentOk then
                if o.makeCurrentOk then
                  s.init_viewport_finish viewport_id vp w surfaceId
                else (s, some GlFail.error)
              else (s, some GlFail.panic)
      else (s, some GlFail.error)
  | _, _ => (s, some GlFail.panic)

/-- The native window `glutin_winit::finalize_window` hands back, with the
data the code reads off it. -/
def fresh_window (s : GlutinWindowContext) (o : NativeOracle) : Window :=
  { id := s.next_window_id
    inner_size := o.windowSize
    minimized := o.windowMinimized
    maximized := o.windowMaximized }

/-- A viewport just given its freshly created window, with the observed
minimize/maximize state recorded in `info`. -/
def Viewport.with_fresh_window (vp : Viewport) (s : GlutinWindowContext) (o : NativeOracle) :
    Viewport :=
  { vp with
    window := some (fresh_window s o)
    info := { vp.info with
      minimized := (fresh_window s o).minimized
      maximized := some (fresh_window s o).maximized } }

/-- `GlutinWindowContext::init_viewport` (source lines 969-1054): look up the
viewport (panicking `expect` when absent), create its native window when
missing (recording the observed minimize/maximize state in `info`), then
create and make current a surface for it. -/
def GlutinWindowContext.init_viewport (s : GlutinWindowContext) (viewport_id : ViewportId)
    (o : NativeOracle) : GlutinWindowContext × Option GlFail :=
  match lookupA s.viewports viewport_id with
  | none => (s, some GlFail.panic)
  | some vp =>
      match vp.window with
      | some w => s.init_viewport_surface viewport_id vp w o
      | none =>
          if o.finalizeWindowOk then
            let w : Window := fresh_window s o
            let vp := vp.with_fresh_window s o
            let s := { s with
              next_window_id := s.next_window_id + 1
              viewports := updateA s.viewports viewport_id vp }
            s.init_viewport_surface viewport_id vp w o
          else (s, some GlFail.error)

/-- `GlutinWindowContext::on_resume` (source lines 952-966): run
`init_viewport` for every registered viewport that has no surface, stopping at
the first propagated failure. -/
def resume_step (o : NativeOracle) (acc : GlutinWindowContext × Option GlFail)
    (viewport_id : ViewportId) : GlutinWindowContext × Option GlFail :=
  match acc.2 with
  | some f => (acc.1, some f)
  | none => GlutinWindowContext.init_viewport acc.1 viewport_id o

def GlutinWindowContext.on_resume (s : GlutinWindowContext) (o : NativeOracle) :
    GlutinWindowContext × Option GlFail :=
  let ids := (s.viewports.filter (fun p => p.2.gl_surface.isNone)).map Prod.fst
  ids.foldl (resume_step o) (s, none)

/-- `GlutinWindowContext::resize` (source lines 1085-1109): clamp the requested
size to at least 1x1 through `NonZeroU32::new(..).unwrap()`; when the viewport
has a surface, move context currency onto it (with `unwrap` panics) and resize
the surface with the clamped dimensions. -/
def GlutinWindowContext.resize (s : GlutinWindowContext) (viewport_id : ViewportId)
    (physical_size : Nat × Nat) (o : NativeOracle) : GlutinWindowContext × Option GlFail :=
  match nonZeroU32New (atLeast physical_size.1 1), nonZeroU32New (atLeast physical_size.2 1) with
  | some width_px, some height_px =>
      match lookupA s.viewports viewport_id with
      | none => (s, none)
      | some viewport =>
          match viewport.gl_surface with
          | none => (s, none)
          | some tk =>
              match s.current_gl_context with
              | none => (s, some GlFail.panic)
              | some _ =>
                  let s := { s with current_gl_context := none }
                  if o.makeNotCurrentOk then
                    if o.makeCurrentOk then
                      ({ s with
                          current_gl_context := some tk
                          surface_calls := s.surface_calls ++ [(width_px, height_px)] }, none)
                    else (s, some GlFail.panic)
                  else (s, some GlFail.panic)
  | _, _ => (s, some GlFail.panic)

/-- The `WindowEvent::Resized` arm of `on_window_event` (source lines 693-703):
a zero width or height (winit's minimize signal) is filtered out before
`resize` is ever called. -/
def GlutinWindowContext.on_window_event_resized (s : GlutinWindowContext) (window_id : Nat)
    (physical_size : Nat × Nat) (o : NativeOracle) : GlutinWindowContext × Option GlFail :=
  if 0 < physical_size.1 ∧ 0 < physical_size.2 then
    match lookupA s.viewport_from_window window_id with
    | some viewport_id => s.resize viewport_id physical_size o
    | none => (s, none)
  else (s, none)

/-! ## Render drivers -/

/-- Early/dispatch phase of a `run_pre` call: either the call ends with an
early `RunResult`, or it proceeds into the update call with the state after the
pre-update mutations and the resolved viewport id. -/
inductive PreResult
  | early (r : RunResult)
  | proceed (s : GlutinWindowContext) (viewport_id : ViewportId)
deriving DecidableEq

/-- The part of `GlowWinitRunning::run_ui_and_paint` before the UI-engine
update call (source lines 481-533): resolve the window id (unknown ids yield
`Wait`); an immediate (no stored callback), non-root viewport is never rendered
here — repaint its parent's window instead, mutating nothing; otherwise refresh
the observed info and unwrap the window and input-adapter state (panicking when
absent) to collect input. -/
def run_pre (s : GlutinWindowContext) (window_id : Nat) : PreResult :=
  match lookupA s.viewport_from_window window_id with
  | none => PreResult.early ⟨s, false, false, Outcome.normal EventResult.Wait⟩
  | some viewport_id =>
    match lookupA s.viewports viewport_id with
    | none => PreResult.early ⟨s, false, false, Outcome.panicked⟩
    | some viewport =>
      if !viewport.viewport_ui_cb && !(viewport_id == ViewportId.ROOT) then
        match lookupA s.viewports viewport.ids.parent with
        | some parent_viewport =>
            match parent_viewport.window with
            | some w => PreResult.early ⟨s, false, false, Outcome.normal (EventResult.RepaintNext w.id)⟩
            | none => PreResult.early ⟨s, false, false, Outcome.normal EventResult.Wait⟩
        | none => PreResult.early ⟨s, false, false, Outcome.normal EventResult.Wait⟩
      else
        let viewport := viewport.update_viewport_info
        let s := { s with viewports := updateA s.viewports viewport_id viewport }
        match viewport.window, viewport.egui_winit with
        | some _, some _ => PreResult.proceed s viewport_id
        | _, _ => PreResult.early ⟨s, false, false, Outcome.panicked⟩

/-- The part of `GlowWinitRunning::run_ui_and_paint` after the UI-engine update
call returns (source lines 545-661): unwrap the viewport and its
window/surface/input-adapter state (panicking when any is absent after the
update), run the context-switch protocol onto this viewport's surface with
`unwrap` panics on failure, clear and paint, consume the pending screenshot
flag, swap buffers (failure only logged), reconcile the returned
viewport-output, and report exit or wait. -/
def run_paint (s : GlutinWindowContext) (viewport_id : ViewportId) (fo : FullOutput)
    (o : NativeOracle) (should_close : Bool) : RunResult :=
  match lookupA s.viewports viewport_id with
  | none => ⟨s, false, false, Outcome.panicked⟩
  | some viewport =>
    match viewport.window, viewport.gl_surface, viewport.egui_winit with
    | some _, some gl_surface, some _ =>
        match s.current_gl_context with
        | none => ⟨s, false, false, Outcome.panicked⟩
        | some _ =>
            let s := { s with current_gl_context := none }
            if o.makeNotCurrentOk then
              if o.makeCurrentOk then
                let s := { s with current_gl_context := some gl_surface }
                let viewport := { viewport with screenshot_requested := false }
                let s := { s with viewports := updateA s.viewports viewport_id viewport }
                let s := s.handle_viewport_output fo.viewport_output
                ⟨s, true, true, Outcome.normal (if should_close then EventResult.Exit else EventResult.Wait)⟩
              else ⟨s, false, false, Outcome.panicked⟩
            else ⟨s, false, false, Outcome.panicked⟩
    | _, _, _ => ⟨s, false, false, Outcome.panicked⟩

/-- `GlowWinitRunning::run_ui_and_paint` (source lines 481-661). The UI-engine
update call is a parameter transforming the shared state (it may reentrantly
run immediate viewports) and returning the frame's output. -/
def run_ui_and_paint (s : GlutinWindowContext) (window_id : Nat)
    (update : GlutinWindowContext → GlutinWindowContext × FullOutput)
    (o : NativeOracle) (should_close : Bool) : RunResult :=
  match run_pre s window_id with
  | PreResult.early r => r
  | PreResult.proceed s1 viewport_id =>
      let uo := update s1
      run_paint uo.1 viewport_id uo.2 o should_close

/-- The part of `render_immediate_viewport` after the user callback returns
(source lines 1330-1393): if the requested viewport no longer exists or lacks
its input-adapter state, window or surface, return without touching anything;
otherwise switch currency onto its surface (with `unwrap` panics), paint, swap,
and reconcile its viewport-output. -/
def render_immediate_post (s : GlutinWindowContext) (this_id : ViewportId) (fo : FullOutput)
    (o : NativeOracle) : ImmResult :=
  match lookupA s.viewports this_id with
  | none => ⟨s, false, false, false, false⟩
  | some viewport =>
    match viewport.egui_winit with
    | none => ⟨s, false, false, false, false⟩
    | some _ =>
      match viewport.window, viewport.gl_surface with
      | some _, some gl_surface =>
          match s.current_gl_context with
          | none => ⟨s, false, false, false, true⟩
          | some _ =>
              let s := { s with current_gl_context := none }
              if o.makeNotCurrentOk then
                if o.makeCurrentOk then
                  let s := { s with current_gl_context := some gl_surface }
                  let s := s.handle_viewport_output fo.viewport_output
                  ⟨s, true, true, true, false⟩
                else ⟨s, false, false, false, true⟩
              else ⟨s, false, false, false, true⟩
      | _, _ => ⟨s, false, false, false, false⟩

/-- `render_immediate_viewport` (source lines 1256-1393): reconcile-or-create
the single requested entry (immediate class, no stored callback), lazily run
`init_viewport` when it has no surface (a failure there is an `expect` panic),
collect input behind presence guards that return early, run the user callback
(a state transformer, since it may recurse into this subsystem), then run the
post phase. -/
def render_immediate_viewport (s : GlutinWindowContext) (ids : ViewportIdPair)
    (builder : ViewportBuilder) (run_cb : GlutinWindowContext → GlutinWindowContext × FullOutput)
    (o : NativeOracle) : ImmResult :=
  let s := { s with
    viewports := init_or_update_viewport s.viewports ids ViewportClass.Immediate builder false none }
  let init_r : GlutinWindowContext × Option GlFail :=
    match lookupA s.viewports ids.thisId with
    | some viewport =>
        if viewport.gl_surface.isNone then s.init_viewport ids.thisId o else (s, none)
    | none => (s, none)
  match init_r.2 with
  | some _ => ⟨init_r.1, false, false, false, true⟩
  | none =>
    let s := init_r.1
    match lookupA s.viewports ids.thisId with
    | none => ⟨s, false, false, false, false⟩
    | some viewport =>
      let viewport := viewport.update_viewport_info
      let s := { s with viewports := updateA s.viewports ids.thisId viewport }
      match viewport.egui_winit, viewport.window with
      | some _, some _ =>
          let uo := run_cb s
          render_immediate_post uo.1 ids.thisId uo.2 o
      | _, _ => ⟨s, false, false, false, false⟩

/-! ## Key-set behaviour of the reconciliation pass -/

theorem hasKey_init_or_update (vps : Registry) (ids : ViewportIdPair) (cls : ViewportClass)
    (builder : ViewportBuilder) (cb : Bool) (f : Option ViewportId) (k : ViewportId) :
    hasKey (init_or_update_viewport vps ids cls builder cb f) k =
      (hasKey vps k || decide (ids.thisId = k)) := by
  unfold init_or_update_viewport
  cases h : lookupA vps ids.thisId with
  | none =>
      simp only [h]
      rw [hasKey_append_single]
  | some vp =>
      simp only [h]
      rw [hasKey_updateA]
      by_cases hk : ids.thisId = k
      · have : hasKey vps k = true := by
          unfold hasKey
          rw [← hk, h]
          rfl
        simp [this, hk]
      · simp [hk]

theorem hasKey_handle_one (f : Option ViewportId) (vps : Registry)
    (e : ViewportId × ViewportOutput) (k : ViewportId) :
    hasKey (handle_one_viewports f vps e) k = (hasKey vps k || decide (e.1 = k)) := by
  unfold handle_one_viewports
  cases h : lookupA (init_or_update_viewport vps ⟨e.1, e.2.parent⟩ e.2.cls e.2.builder
      e.2.viewport_ui_cb f) e.1 with
  | none => simp only [h, hasKey_init_or_update]
  | some vp =>
      simp only [h]
      cases hw : vp.window with
      | none => simp only [hasKey_init_or_update]
      | some w => simp only [hw, hasKey_updateA, hasKey_init_or_update]

theorem hasKey_handle_fold (out : List (ViewportId × ViewportOutput)) (f : Option ViewportId)
    (vps : Registry) (k : ViewportId) :
    hasKey (out.foldl (handle_one_viewports f) vps) k =
      (hasKey vps k || out.any (fun e => decide (e.1 = k))) := by
  induction out generalizing vps with
  | nil => simp
  | cons e t ih =>
      simp only [List.foldl_cons, List.any_cons]
      rw [ih, hasKey_handle_one, Bool.or_assoc]

theorem contains_map_fst (out : List (ViewportId × ViewportOutput)) (k : ViewportId) :
    (out.map Prod.fst).contains k = out.any (fun e => decide (e.1 = k)) := by
  induction out with
  | nil => rfl
  | cons e t ih =>
      simp only [List.map_cons, List.contains_cons, List.any_cons, ih]
      by_cases h : e.1 = k
      · simp [h]
      · simp [h, Ne.symm h]

/-- Claim C1 counterexample state: a registry holding only the root viewport. -/
def exC1_root_vp : Viewport :=
  { ids := { thisId := 0, parent := 0 }
    cls := ViewportClass.Root
    builder := { title := some "app", transparent := none, icon := none }
    info := ViewportInfo.empty
    screenshot_requested := false
    viewport_ui_cb := false
    gl_surface := some 10
    window := some { id := 100, inner_size := (640, 480), minimized := some false, maximized := false }
    egui_winit := some () }

def exC1_state : GlutinWindowContext :=
  { current_gl_context := some 10
    not_current_gl_context := false
    viewports := [(0, exC1_root_vp)]
    viewport_from_window := [(100, 0)]
    window_from_viewport := [(0, 100)]
    focused_viewport := some 0
    next_surface_id := 11
    next_window_id := 101
    surface_calls := [] }

/-- Claim C1 counterexample frame output: one non-root entry, root absent. -/
def exC1_out : List (ViewportId × ViewportOutput) :=
  [(1, { parent := 0
         cls := ViewportClass.Deferred
         builder := { title := some "child", transparent := none, icon := none }
         viewport_ui_cb := true
         commands := [] })]

/-- Claim C1, counterexample: the claim says the root viewport is never deleted
by reconciliation even when absent from the frame's map. On a map without the
root id, the registry holds the root before `handle_viewport_output` and no
longer holds it afterwards: the GC `retain` has no root exemption. -/
theorem C1_root_gc_cex :
    hasKey exC1_state.viewports 0 = true
    ∧ hasKey (exC1_state.handle_viewport_output exC1_out).viewports 0 = false
    ∧ hasKey (exC1_state.handle_viewport_output exC1_out).viewports 1 = true := by
  decide

/-- Claim C1, amended: after `handle_viewport_output` processes a
viewport-output map, the registry's key set equals exactly the key set of the
map — the root id included only when the map contains it; a root absent from
the map is deleted like any other id. -/
theorem C1_registry_keys_eq_output (s : GlutinWindowContext)
    (out : List (ViewportId × ViewportOutput)) (k : ViewportId) :
    hasKey (s.handle_viewport_output out).viewports k = (out.map Prod.fst).contains k := by
  unfold GlutinWindowContext.handle_viewport_output
  simp only
  unfold hasKey
  rw [lookupA_filter_key]
  rw [contains_map_fst]
  cases hc : (out.map Prod.fst).contains k with
  | false =>
      rw [contains_map_fst] at hc
      simp [hc]
  | true =>
      rw [contains_map_fst] at hc
      simp only [hc]
      rw [if_pos trivial]
      have := hasKey_handle_fold out s.focused_viewport s.viewports k
      unfold hasKey at this
      rw [this, hc, Bool.or_true]

/-! ## The must-recreate path and the surface-implies-window invariant -/

def exC2_vp : Viewport :=
  { ids := { thisId := 5, parent := 0 }
    cls := ViewportClass.Deferred
    builder := { title := some "a", transparent := some false, icon := some 1 }
    info := ViewportInfo.empty
    screenshot_requested := false
    viewport_ui_cb := true
    gl_surface := some 7
    window := some { id := 105, inner_size := (320, 200), minimized := some false, maximized := false }
    egui_winit := some () }

def exC2_reg : Registry := [(5, exC2_vp)]

/-- New builder differing from `exC2_vp.builder` only in `transparent`. -/
def exC2_builder_tr : ViewportBuilder := { title := some "a", transparent := some true, icon := some 1 }

/-- New builder differing from `exC2_vp.builder` only in `title`. -/
def exC2_builder_ti : ViewportBuilder := { title := some "b", transparent := some false, icon := some 1 }

/-- Claim C2 (code bug exhibit): reconciling an existing viewport that has a
window, surface and input-adapter state with a builder whose `transparent`
changed takes the must-recreate branch, which drops the window and the
input-adapter state but leaves `gl_surface` in place — the spec says the
surface must be absent afterwards, and the resume pass only recreates
viewports whose `gl_surface` is absent, so the promised lazy recreation never
runs. A title-only diff keeps window and surface, as claimed. -/
theorem C2_recreate_keeps_surface :
    (lookupA (init_or_update_viewport exC2_reg { thisId := 5, parent := 0 }
        ViewportClass.Deferred exC2_builder_tr true none) 5).map
      (fun vp => (vp.window.isNone, vp.egui_winit.isNone, vp.gl_surface.isSome))
      = some (true, true, true)
    ∧ (lookupA (init_or_update_viewport exC2_reg { thisId := 5, parent := 0 }
        ViewportClass.Deferred exC2_builder_ti true none) 5).map
      (fun vp => (vp.window.isSome, vp.gl_surface.isSome, vp.egui_winit.isSome))
      = some (true, true, true) := by
  decide

/-- A viewport holds a surface only if it also holds a native window. -/
def surface_only_with_window (r : Registry) : Bool :=
  r.all (fun p => !p.2.gl_surface.isSome || p.2.window.isSome)

def exC4_vp : Viewport :=
  { ids := { thisId := 6, parent := 0 }
    cls := ViewportClass.Deferred
    builder := { title := some "w", transparent := some false, icon := none }
    info := ViewportInfo.empty
    screenshot_requested := false
    viewport_ui_cb := true
    gl_surface := some 9
    window := some { id := 106, inner_size := (800, 600), minimized := some false, maximized := false }
    egui_winit := some () }

def exC4_reg : Registry := [(6, exC4_vp)]

def exC4_builder : ViewportBuilder := { title := some "w", transparent := some true, icon := none }

/-- Claim C4 (code bug exhibit): the surface-implies-window invariant holds of
the registry before reconciliation and is broken by the must-recreate path of
`init_or_update_viewport`, which clears `window` but not `gl_surface`. -/
theorem C4_recreate_breaks_invariant :
    surface_only_with_window exC4_reg = true
    ∧ surface_only_with_window (init_or_update_viewport exC4_reg { thisId := 6, parent := 0 }
        ViewportClass.Deferred exC4_builder true none) = false := by
  decide

/-! ## Suspend -/

/-- Claim C6: after `on_suspend` every registered viewport has no surface and
no window, no registry entry is deleted, and no context is current — all of
this also on the branch where demoting the context fails. -/
theorem C6_suspend_clears (s : GlutinWindowContext) (o : NativeOracle) :
    (∀ k vp, lookupA (s.on_suspend o).1.viewports k = some vp →
        vp.gl_surface = none ∧ vp.window = none)
    ∧ (∀ k, hasKey (s.on_suspend o).1.viewports k = hasKey s.viewports k)
    ∧ (s.on_suspend o).1.current_gl_context = none := by
  have hview : (s.on_suspend o).1.viewports = s.viewports.map
      (fun (p : ViewportId × Viewport) => (p.1, p.2.drop_native)) := by
    unfold GlutinWindowContext.on_suspend
    cases h : s.current_gl_context with
    | none => simp [h]
    | some c => cases ho : o.makeNotCurrentOk <;> simp [h, ho]
  have hcur : (s.on_suspend o).1.current_gl_context = none := by
    unfold GlutinWindowContext.on_suspend
    cases h : s.current_gl_context with
    | none => simp [h]
    | some c => cases ho : o.makeNotCurrentOk <;> simp [h, ho]
  refine ⟨?_, ?_, hcur⟩
  · intro k vp hvp
    rw [hview, lookupA_map_val] at hvp
    cases h : lookupA s.viewports k with
    | none => rw [h] at hvp; exact absurd hvp (by simp)
    | some vp0 =>
        rw [h] at hvp
        simp only [Option.map_some'] at hvp
        injection hvp with h2
        rw [← h2]
        exact ⟨rfl, rfl⟩
  · intro k
    rw [hview]
    unfold hasKey
    rw [lookupA_map_val]
    cases lookupA s.viewports k <;> rfl

def exC6_vp : Viewport :=
  { ids := { thisId := 0, parent := 0 }
    cls := ViewportClass.Root
    builder := { title := some "app", transparent := none, icon := none }
    info := ViewportInfo.empty
    screenshot_requested := false
    viewport_ui_cb := false
    gl_surface := some 3
    window := some { id := 50, inner_size := (640, 480), minimized := some false, maximized := false }
    egui_winit := some () }

def exC6_state : GlutinWindowContext :=
  { current_gl_context := some 3
    not_current_gl_context := false
    viewports := [(0, exC6_vp)]
    viewport_from_window := [(50, 0)]
    window_from_viewport := [(0, 50)]
    focused_viewport := some 0
    next_surface_id := 4
    next_window_id := 51
    surface_calls := [] }

/-- Failure oracle: demoting the context to not-current fails. -/
def exC6_oracle : NativeOracle :=
  { finalizeWindowOk := true, createSurfaceOk := true, makeCurrentOk := true,
    makeNotCurrentOk := false, setSwapIntervalOk := true,
    windowSize := (640, 480), windowMinimized := some false, windowMaximized := false }

/-- Witness for claim C6 at a concrete state whose demotion fails: the root
entry is still registered afterwards, with surface and window cleared. -/
theorem C6_suspend_clears_witness :
    { exC6_vp with gl_surface := none, window := none }.gl_surface = none
    ∧ { exC6_vp with gl_surface := none, window := none }.window = none :=
  (C6_suspend_clears exC6_state exC6_oracle).1 0
    { exC6_vp with gl_surface := none, window := none } (by decide)

/-! ## Size clamping (resize and surface creation) -/

theorem nonZeroU32New_atLeast_one (n : Nat) : nonZeroU32New (atLeast n 1) = some (max n 1) := by
  unfold nonZeroU32New atLeast
  have h : ¬ max n 1 = 0 := by
    have := Nat.le_max_right n 1
    omega
  simp [h]

theorem surface_calls_init_finish (s : GlutinWindowContext) (vid : ViewportId) (vp : Viewport)
    (w : Window) (tk : Nat) :
    (s.init_viewport_finish vid vp w tk).1.surface_calls = s.surface_calls := rfl

theorem surface_calls_init_surface (s : GlutinWindowContext) (vid : ViewportId) (vp : Viewport)
    (w : Window) (o : NativeOracle) :
    (s.init_viewport_surface vid vp w o).1.surface_calls =
      s.surface_calls ++ [(max w.inner_size.1 1, max w.inner_size.2 1)] := by
  cases hc : o.createSurfaceOk <;> cases hn : s.not_current_gl_context <;>
    cases hm : o.makeCurrentOk <;> cases hk : o.makeNotCurrentOk <;>
    cases hcur : s.current_gl_context <;>
    simp [GlutinWindowContext.init_viewport_surface, GlutinWindowContext.init_viewport_finish,
      nonZeroU32New_atLeast_one, hc, hn, hm, hk, hcur]

theorem surface_calls_init_viewport (s : GlutinWindowContext) (vid : ViewportId)
    (o : NativeOracle) :
    (s.init_viewport vid o).1.surface_calls = s.surface_calls
    ∨ ∃ a b, (s.init_viewport vid o).1.surface_calls = s.surface_calls ++ [(max a 1, max b 1)] := by
  cases hv : lookupA s.viewports vid with
  | none =>
      left
      simp [GlutinWindowContext.init_viewport, hv]
  | some vp =>
      cases hw : vp.window with
      | some w =>
          refine Or.inr ⟨w.inner_size.1, w.inner_size.2, ?_⟩
          simp [GlutinWindowContext.init_viewport, hv, hw, surface_calls_init_surface]
      | none =>
          cases hf : o.finalizeWindowOk with
          | false =>
              left
              simp [GlutinWindowContext.init_viewport, hv, hw, hf]
          | true =>
              refine Or.inr ⟨o.windowSize.1, o.windowSize.2, ?_⟩
              simp [GlutinWindowContext.init_viewport, hv, hw, hf, surface_calls_init_surface,
                fresh_window]

theorem surface_calls_resize (s : GlutinWindowContext) (vid : ViewportId) (sz : Nat × Nat)
    (o : NativeOracle) :
    (s.resize vid sz o).1.surface_calls = s.surface_calls
    ∨ (s.resize vid sz o).1.surface_calls = s.surface_calls ++ [(max sz.1 1, max sz.2 1)] := by
  cases hv : lookupA s.viewports vid with
  | none =>
      left
      simp [GlutinWindowContext.resize, nonZeroU32New_atLeast_one, hv]
  | some vp =>
      cases hg : vp.gl_surface with
      | none =>
          left
          simp [GlutinWindowContext.resize, nonZeroU32New_atLeast_one, hv, hg]
      | some tk =>
          cases hcur : s.current_gl_context with
          | none =>
              left
              simp [GlutinWindowContext.resize, nonZeroU32New_atLeast_one, hv, hg, hcur]
          | some c =>
              cases hk : o.makeNotCurrentOk with
              | false =>
                  left
                  simp [GlutinWindowContext.resize, nonZeroU32New_atLeast_one, hv, hg, hcur, hk]
              | true =>
                  cases hm : o.makeCurrentOk with
                  | false =>
                      left
                      simp [GlutinWindowContext.resize, nonZeroU32New_atLeast_one,
                        hv, hg, hcur, hk, hm]
                  | true =>
                      right
                      simp [GlutinWindowContext.resize, nonZeroU32New_atLeast_one,
                        hv, hg, hcur, hk, hm]

theorem clamped_tail_all_ge_one (l : List (Nat × Nat)) (t : List (Nat × Nat))
    (h : t = l ∨ ∃ a b, t = l ++ [(max a 1, max b 1)]) :
    ((t.drop l.length).all (fun c => decide (1 ≤ c.1) && decide (1 ≤ c.2))) = true := by
  rcases h with h | ⟨a, b, h⟩
  · rw [h, List.drop_length]
    rfl
  · rw [h, List.drop_left]
    simp only [List.all_cons, List.all_nil, Bool.and_true]
    have ha : 1 ≤ max a 1 := Nat.le_max_right a 1
    have hb : 1 ≤ max b 1 := Nat.le_max_right b 1
    simp [ha, hb]

/-- Claim C8: the `NonZeroU32` constructions on clamped sizes never fail, and
every `(width, height)` pair a `resize`, `init_viewport` or resized-window
event hands to the native surface API is at least 1 in each axis — in
particular a requested (0,0) resize is applied as a size of at least 1x1. -/
theorem C8_sizes_clamped (s : GlutinWindowContext) (vid : ViewportId) (wid : Nat)
    (sz : Nat × Nat) (o : NativeOracle) :
    (nonZeroU32New (atLeast sz.1 1)).isSome = true
    ∧ (nonZeroU32New (atLeast sz.2 1)).isSome = true
    ∧ (((s.resize vid sz o).1.surface_calls.drop s.surface_calls.length).all
        (fun c => decide (1 ≤ c.1) && decide (1 ≤ c.2))) = true
    ∧ (((s.init_viewport vid o).1.surface_calls.drop s.surface_calls.length).all
        (fun c => decide (1 ≤ c.1) && decide (1 ≤ c.2))) = true
    ∧ (((s.on_window_event_resized wid sz o).1.surface_calls.drop s.surface_calls.length).all
        (fun c => decide (1 ≤ c.1) && decide (1 ≤ c.2))) = true := by
  refine ⟨?_, ?_, ?_, ?_, ?_⟩
  · rw [nonZeroU32New_atLeast_one]; rfl
  · rw [nonZeroU32New_atLeast_one]; rfl
  · exact clamped_tail_all_ge_one s.surface_calls _
      (by
        rcases surface_calls_resize s vid sz o with h | h
        · exact Or.inl h
        · exact Or.inr ⟨sz.1, sz.2, h⟩)
  · exact clamped_tail_all_ge_one s.surface_calls _ (surface_calls_init_viewport s vid o)
  · unfold GlutinWindowContext.on_window_event_resized
    by_cases hz : 0 < sz.1 ∧ 0 < sz.2
    · simp only [hz, if_pos]
      cases lookupA s.viewport_from_window wid with
      | none => simp [List.drop_length]
      | some vid2 =>
          exact clamped_tail_all_ge_one s.surface_calls _
            (by
              rcases surface_calls_resize s vid2 sz o with h | h
              · exact Or.inl h
              · exact Or.inr ⟨sz.1, sz.2, h⟩)
    · simp only [hz, if_neg, not_false_iff]
      simp [List.drop_length]

/-! ## Render-driver claims -/

theorem mem_keys_of_hasKey {κ α : Type} [DecidableEq κ] (l : List (κ × α)) (k : κ)
    (h : hasKey l k = true) : k ∈ l.map Prod.fst := by
  induction l with
  | nil => simp [hasKey, lookupA] at h
  | cons p rest ih =>
      obtain ⟨pk, pv⟩ := p
      by_cases h1 : pk = k
      · simp [h1]
      · unfold hasKey lookupA at h
        rw [if_neg h1] at h
        simp only [List.map_cons, List.mem_cons]
        exact Or.inr (ih h)

theorem current_handle_viewport_output (s : GlutinWindowContext)
    (out : List (ViewportId × ViewportOutput)) :
    (s.handle_viewport_output out).current_gl_context = s.current_gl_context := rfl

def allOkOracle : NativeOracle :=
  { finalizeWindowOk := true, createSurfaceOk := true, makeCurrentOk := true,
    makeNotCurrentOk := true, setSwapIntervalOk := true,
    windowSize := (640, 480), windowMinimized := some false, windowMaximized := false }

/-- Claim C9: called on a window whose viewport has no stored callback and is
not the root, `run_ui_and_paint` leaves the whole state untouched, paints and
swaps nothing, and yields a repaint request for the parent's window when the
parent has a live window, else a wait. -/
theorem C9_immediate_defers_to_parent (s : GlutinWindowContext) (window_id : Nat)
    (update : GlutinWindowContext → GlutinWindowContext × FullOutput) (o : NativeOracle)
    (should_close : Bool) (vid : ViewportId) (vp : Viewport)
    (h1 : lookupA s.viewport_from_window window_id = some vid)
    (h2 : lookupA s.viewports vid = some vp)
    (h3 : vp.viewport_ui_cb = false)
    (h4 : vid ≠ ViewportId.ROOT) :
    run_ui_and_paint s window_id update o should_close =
      ⟨s, false, false, Outcome.normal
        (match (lookupA s.viewports vp.ids.parent).bind Viewport.window with
         | some w => EventResult.RepaintNext w.id
         | none => EventResult.Wait)⟩ := by
  have hbe : (vid == ViewportId.ROOT) = false := by
    simp [h4]
  cases hp : lookupA s.viewports vp.ids.parent with
  | none => simp [run_ui_and_paint, run_pre, h1, h2, h3, hbe, hp]
  | some p =>
      cases hw : p.window with
      | some w => simp [run_ui_and_paint, run_pre, h1, h2, h3, hbe, hp, hw]
      | none => simp [run_ui_and_paint, run_pre, h1, h2, h3, hbe, hp, hw]

def exC9_vp0 : Viewport :=
  { ids := { thisId := 0, parent := 0 }
    cls := ViewportClass.Root
    builder := { title := some "app", transparent := none, icon := none }
    info := ViewportInfo.empty
    screenshot_requested := false
    viewport_ui_cb := false
    gl_surface := some 10
    window := some { id := 100, inner_size := (640, 480), minimized := some false, maximized := false }
    egui_winit := some () }

def exC9_vp1 : Viewport :=
  { ids := { thisId := 1, parent := 0 }
    cls := ViewportClass.Immediate
    builder := { title := some "imm", transparent := none, icon := none }
    info := ViewportInfo.empty
    screenshot_requested := false
    viewport_ui_cb := false
    gl_surface := some 11
    window := some { id := 101, inner_size := (320, 200), minimized := some false, maximized := false }
    egui_winit := some () }

def exC9_state : GlutinWindowContext :=
  { current_gl_context := some 10
    not_current_gl_context := false
    viewports := [(0, exC9_vp0), (1, exC9_vp1)]
    viewport_from_window := [(100, 0), (101, 1)]
    window_from_viewport := [(0, 100), (1, 101)]
    focused_viewport := some 0
    next_surface_id := 12
    next_window_id := 102
    surface_calls := [] }

def exC9_update : GlutinWindowContext → GlutinWindowContext × FullOutput :=
  fun t => (t, { viewport_output := [] })

/-- Witness for claim C9 at a concrete immediate viewport whose parent is the
live root window. -/
theorem C9_immediate_defers_to_parent_witness :
    run_ui_and_paint exC9_state 101 exC9_update allOkOracle false =
      ⟨exC9_state, false, false, Outcome.normal (EventResult.RepaintNext 100)⟩ := by
  rw [C9_immediate_defers_to_parent exC9_state 101 exC9_update allOkOracle false 1 exC9_vp1
    (by decide) (by decide) (by decide) (by decide)]
  decide

/-- Claim C10: when after the user callback the requested viewport is missing
from the registry, or lacks its input-adapter state, window or surface, the
post phase of `render_immediate_viewport` returns with the state unchanged and
performs no draw, no swap and no context switch. -/
theorem C10_immediate_post_noop (s : GlutinWindowContext) (this_id : ViewportId)
    (fo : FullOutput) (o : NativeOracle)
    (h : (lookupA s.viewports this_id).elim True
        (fun vp => vp.egui_winit = none ∨ vp.window = none ∨ vp.gl_surface = none)) :
    render_immediate_post s this_id fo o =
      { state := s, painted := false, swapped := false, switched := false, panicked := false } := by
  cases hv : lookupA s.viewports this_id with
  | none => simp [render_immediate_post, hv]
  | some vp =>
      rw [hv] at h
      simp only [Option.elim] at h
      cases hw : vp.egui_winit with
      | none => simp [render_immediate_post, hv, hw]
      | some u =>
          cases hwin : vp.window with
          | none => simp [render_immediate_post, hv, hw, hwin]
          | some w =>
              cases hg : vp.gl_surface with
              | none => simp [render_immediate_post, hv, hw, hwin, hg]
              | some t =>
                  exfalso
                  rcases h with h | h | h
                  · rw [h] at hw; cases hw
                  · rw [h] at hwin; cases hwin
                  · rw [h] at hg; cases hg

def exC10_state : GlutinWindowContext :=
  { current_gl_context := some 10
    not_current_gl_context := false
    viewports := [(0, exC9_vp0)]
    viewport_from_window := [(100, 0)]
    window_from_viewport := [(0, 100)]
    focused_viewport := some 0
    next_surface_id := 12
    next_window_id := 102
    surface_calls := [] }

/-- Witness for claim C10: viewport id 9 was garbage-collected by a nested
reconciliation, so the post phase finds no registry entry and no-ops. -/
theorem C10_immediate_post_noop_witness :
    render_immediate_post exC10_state 9 { viewport_output := [] } allOkOracle =
      { state := exC10_state, painted := false, swapped := false, switched := false,
        panicked := false } :=
  C10_immediate_post_noop exC10_state 9 { viewport_output := [] } allOkOracle (by exact trivial)

def exC3_vp : Viewport :=
  { ids := { thisId := 0, parent := 0 }
    cls := ViewportClass.Root
    builder := { title := some "app", transparent := none, icon := none }
    info := { minimized := some false, maximized := some false, focused := none, events := [] }
    screenshot_requested := false
    viewport_ui_cb := false
    gl_surface := some 10
    window := some { id := 100, inner_size := (640, 480), minimized := some false, maximized := false }
    egui_winit := some () }

def exC3_state : GlutinWindowContext :=
  { current_gl_context := some 10
    not_current_gl_context := false
    viewports := [(0, exC3_vp)]
    viewport_from_window := [(100, 0)]
    window_from_viewport := [(0, 100)]
    focused_viewport := some 0
    next_surface_id := 12
    next_window_id := 102
    surface_calls := [] }

def exC3_out : List (ViewportId × ViewportOutput) :=
  [(0, { parent := 0
         cls := ViewportClass.Root
         builder := { title := some "app", transparent := none, icon := none }
         viewport_ui_cb := false
         commands := [] })]

def exC3_update : GlutinWindowContext → GlutinWindowContext × FullOutput :=
  fun t => (t, { viewport_output := exC3_out })

def exC3b_state : GlutinWindowContext :=
  { current_gl_context := some 10
    not_current_gl_context := false
    viewports := [(0, exC3_vp), (1, exC9_vp1)]
    viewport_from_window := [(100, 0), (101, 1)]
    window_from_viewport := [(0, 100), (1, 101)]
    focused_viewport := some 0
    next_surface_id := 12
    next_window_id := 102
    surface_calls := [] }

/-- Claim C3, counterexample: a render-driver call for an immediate non-root
viewport (id 1, surface token 11) completes via the early-return path and
leaves the context current on the root's surface (token 10), not on the called
viewport's surface — so after this completed call the current surface does not
belong to the call's viewport. -/
theorem C3_early_return_cex :
    (run_ui_and_paint exC3b_state 101 exC3_update allOkOracle false).state.current_gl_context
        = some 10
    ∧ (lookupA exC3b_state.viewports 1).map Viewport.gl_surface = some (some 11)
    ∧ ¬ (run_ui_and_paint exC3b_state 101 exC3_update allOkOracle false).state.current_gl_context
        = some 11 := by
  decide

/-- Claim C3, amended: the shared context is current against at most one
surface at any instant (the `current_gl_context` slot of the state is a single
`Option`), and after any `run_ui_and_paint` call that reaches its paint phase —
which re-asserts currency after the update call and any immediate renders
nested inside it — the context is current exactly on the surface of the
viewport the top-level call was made for. Calls that return early (immediate
non-root viewports, unknown windows) leave currency unchanged and are excluded
from the claim as amended. -/
theorem C3_current_after_paint (s : GlutinWindowContext) (window_id : Nat)
    (update : GlutinWindowContext → GlutinWindowContext × FullOutput) (o : NativeOracle)
    (should_close : Bool) (s1 : GlutinWindowContext) (vid : ViewportId) (vp : Viewport) (tk : Nat)
    (hpre : run_pre s window_id = PreResult.proceed s1 vid)
    (hvp : lookupA (update s1).1.viewports vid = some vp)
    (hw : vp.window.isSome = true)
    (hg : vp.gl_surface = some tk)
    (he : vp.egui_winit.isSome = true)
    (hcur : (update s1).1.current_gl_context.isSome = true)
    (hnc : o.makeNotCurrentOk = true)
    (hmc : o.makeCurrentOk = true) :
    (run_ui_and_paint s window_id update o should_close).state.current_gl_context = some tk
    ∧ (run_ui_and_paint s window_id update o should_close).painted = true := by
  obtain ⟨w, hw'⟩ := Option.isSome_iff_exists.mp hw
  obtain ⟨u, he'⟩ := Option.isSome_iff_exists.mp he
  obtain ⟨cc, hc'⟩ := Option.isSome_iff_exists.mp hcur
  unfold run_ui_and_paint
  rw [hpre]
  constructor <;>
    simp [run_paint, hvp, hw', hg, he', hc', hnc, hmc, current_handle_viewport_output]

/-- Witness for claim C3 at the concrete root viewport: after the paint the
context is current on the root's surface token 10. -/
theorem C3_current_after_paint_witness :
    (run_ui_and_paint exC3_state 100 exC3_update allOkOracle false).state.current_gl_context
        = some 10
    ∧ (run_ui_and_paint exC3_state 100 exC3_update allOkOracle false).painted = true :=
  C3_current_after_paint exC3_state 100 exC3_update allOkOracle false exC3_state 0 exC3_vp 10
    (by decide) (by decide) (by decide) (by decide) (by decide) (by decide) (by decide) (by decide)

/-- Claim C5, counterexample: with make-current failing, the per-window render
panics (the source unwraps the result) instead of logging the error and
carrying on — the claim's logged-and-skipped behaviour does not happen. -/
def exC5_oracle : NativeOracle :=
  { finalizeWindowOk := true, createSurfaceOk := true, makeCurrentOk := false,
    makeNotCurrentOk := true, setSwapIntervalOk := true,
    windowSize := (640, 480), windowMinimized := some false, windowMaximized := false }

theorem C5_unwrap_panics_cex :
    (run_ui_and_paint exC3_state 100 exC3_update exC5_oracle false).outcome = Outcome.panicked
    ∧ (run_ui_and_paint exC3_state 100 exC3_update exC5_oracle false).painted = false
    ∧ (run_ui_and_paint exC3_state 100 exC3_update exC5_oracle false).swapped = false := by
  decide

/-- Claim C5, amended: when make-not-current or make-current fails in the
context-switch block of the per-window render, the in-flight frame is abandoned
with no draw and no swap and the switch is not retried — but through a panic
(`unwrap`), not a logged error, so the render loop does not continue; only a
buffer-swap failure is logged and survived. -/
theorem C5_context_switch_failure_panics (s : GlutinWindowContext) (viewport_id : ViewportId)
    (fo : FullOutput) (o : NativeOracle) (should_close : Bool) (vp : Viewport)
    (hvp : lookupA s.viewports viewport_id = some vp)
    (hw : vp.window.isSome = true)
    (hg : vp.gl_surface.isSome = true)
    (he : vp.egui_winit.isSome = true)
    (hcur : s.current_gl_context.isSome = true)
    (hfail : o.makeNotCurrentOk = false ∨ o.makeCurrentOk = false) :
    (run_paint s viewport_id fo o should_close).outcome = Outcome.panicked
    ∧ (run_paint s viewport_id fo o should_close).painted = false
    ∧ (run_paint s viewport_id fo o should_close).swapped = false := by
  obtain ⟨w, hw'⟩ := Option.isSome_iff_exists.mp hw
  obtain ⟨g, hg'⟩ := Option.isSome_iff_exists.mp hg
  obtain ⟨u, he'⟩ := Option.isSome_iff_exists.mp he
  obtain ⟨cc, hc'⟩ := Option.isSome_iff_exists.mp hcur
  rcases hfail with hf | hf
  · refine ⟨?_, ?_, ?_⟩ <;> simp [run_paint, hvp, hw', hg', he', hc', hf]
  · cases hnc : o.makeNotCurrentOk <;>
      (refine ⟨?_, ?_, ?_⟩ <;> simp [run_paint, hvp, hw', hg', he', hc', hf, hnc])

/-- Witness for claim C5 at the concrete root viewport with a failing
make-current. -/
theorem C5_context_switch_failure_panics_witness :
    (run_paint exC3_state 0 { viewport_output := exC3_out } exC5_oracle false).outcome
        = Outcome.panicked
    ∧ (run_paint exC3_state 0 { viewport_output := exC3_out } exC5_oracle false).painted = false
    ∧ (run_paint exC3_state 0 { viewport_output := exC3_out } exC5_oracle false).swapped = false :=
  C5_context_switch_failure_panics exC3_state 0 { viewport_output := exC3_out } exC5_oracle false
    exC3_vp (by decide) (by decide) (by decide) (by decide) (by decide) (Or.inr (by decide))

/-! ## Suspend followed by resume -/

/-- Whether the registry entry at a key holds a live surface. -/
def surf_state (r : Registry) (k : ViewportId) : Option Bool :=
  (lookupA r k).map (fun vp => vp.gl_surface.isSome)

theorem on_suspend_viewports (s : GlutinWindowContext) (o : NativeOracle) :
    (s.on_suspend o).1.viewports =
      s.viewports.map (fun (p : ViewportId × Viewport) => (p.1, p.2.drop_native)) := by
  unfold GlutinWindowContext.on_suspend
  cases h : s.current_gl_context with
  | none => simp [h]
  | some c => cases ho : o.makeNotCurrentOk <;> simp [h, ho]

theorem on_suspend_ctx_avail (s : GlutinWindowContext) (o : NativeOracle)
    (hnc : o.makeNotCurrentOk = true)
    (hctx : (s.current_gl_context.isSome || s.not_current_gl_context) = true) :
    ((s.on_suspend o).1.current_gl_context.isSome
      || (s.on_suspend o).1.not_current_gl_context) = true := by
  unfold GlutinWindowContext.on_suspend
  cases h : s.current_gl_context with
  | none =>
      rw [h] at hctx
      simp only [Option.isSome_none, Bool.false_or] at hctx
      simp [h, hctx]
  | some c => simp [h, hnc]

theorem init_surface_ok (s : GlutinWindowContext) (vid : ViewportId) (vp : Viewport) (w : Window)
    (o : NativeOracle)
    (hcs : o.createSurfaceOk = true) (hmc : o.makeCurrentOk = true)
    (hnc : o.makeNotCurrentOk = true)
    (hctx : (s.current_gl_context.isSome || s.not_current_gl_context) = true)
    (hk : hasKey s.viewports vid = true) :
    (s.init_viewport_surface vid vp w o).2 = none
    ∧ (s.init_viewport_surface vid vp w o).1.current_gl_context = some s.next_surface_id
    ∧ lookupA (s.init_viewport_surface vid vp w o).1.viewports vid =
        some { vp with egui_winit := some (), gl_surface := some s.next_surface_id }
    ∧ (∀ k, k ≠ vid →
        lookupA (s.init_viewport_surface vid vp w o).1.viewports k = lookupA s.viewports k) := by
  have e1 : lookupA (updateA s.viewports vid
      { vp with egui_winit := some (), gl_surface := some s.next_surface_id }) vid =
      some { vp with egui_winit := some (), gl_surface := some s.next_surface_id } :=
    lookupA_updateA_self _ _ _ hk
  cases hn : s.not_current_gl_context with
  | true =>
      refine ⟨?_, ?_, ?_, ?_⟩
      · simp [GlutinWindowContext.init_viewport_surface, GlutinWindowContext.init_viewport_finish,
          nonZeroU32New_atLeast_one, hcs, hmc, hnc, hn]
      · simp [GlutinWindowContext.init_viewport_surface, GlutinWindowContext.init_viewport_finish,
          nonZeroU32New_atLeast_one, hcs, hmc, hnc, hn]
      · simp only [GlutinWindowContext.init_viewport_surface,
          GlutinWindowContext.init_viewport_finish, nonZeroU32New_atLeast_one, hcs, hmc, hnc, hn]
        simp [e1]
      · intro k hkne
        simp only [GlutinWindowContext.init_viewport_surface,
          GlutinWindowContext.init_viewport_finish, nonZeroU32New_atLeast_one, hcs, hmc, hnc, hn]
        simp [lookupA_updateA_ne s.viewports vid k _ (Ne.symm hkne)]
  | false =>
      cases hcur : s.current_gl_context with
      | none =>
          rw [hn, hcur] at hctx
          simp at hctx
      | some c =>
          refine ⟨?_, ?_, ?_, ?_⟩
          · simp [GlutinWindowContext.init_viewport_surface,
              GlutinWindowContext.init_viewport_finish, nonZeroU32New_atLeast_one,
              hcs, hmc, hnc, hn, hcur]
          · simp [GlutinWindowContext.init_viewport_surface,
              GlutinWindowContext.init_viewport_finish, nonZeroU32New_atLeast_one,
              hcs, hmc, hnc, hn, hcur]
          · simp only [GlutinWindowContext.init_viewport_surface,
              GlutinWindowContext.init_viewport_finish, nonZeroU32New_atLeast_one,
              hcs, hmc, hnc, hn, hcur]
            simp [e1]
          · intro k hkne
            simp only [GlutinWindowContext.init_viewport_surface,
              GlutinWindowContext.init_viewport_finish, nonZeroU32New_atLeast_one,
              hcs, hmc, hnc, hn, hcur]
            simp [lookupA_updateA_ne s.viewports vid k _ (Ne.symm hkne)]

theorem init_viewport_ok (s : GlutinWindowContext) (vid : ViewportId) (o : NativeOracle)
    (hfw : o.finalizeWindowOk = true) (hcs : o.createSurfaceOk = true)
    (hmc : o.makeCurrentOk = true) (hnc : o.makeNotCurrentOk = true)
    (hctx : (s.current_gl_context.isSome || s.not_current_gl_context) = true)
    (hk : hasKey s.viewports vid = true) :
    (s.init_viewport vid o).2 = none
    ∧ (s.init_viewport vid o).1.current_gl_context.isSome = true
    ∧ surf_state (s.init_viewport vid o).1.viewports vid = some true
    ∧ (∀ k, k ≠ vid →
        lookupA (s.init_viewport vid o).1.viewports k = lookupA s.viewports k) := by
  have hk' := hk
  unfold hasKey at hk'
  obtain ⟨vp, hv⟩ := Option.isSome_iff_exists.mp hk'
  cases hw : vp.window with
  | some w =>
      have hred : s.init_viewport vid o = s.init_viewport_surface vid vp w o := by
        simp [GlutinWindowContext.init_viewport, hv, hw]
      have h := init_surface_ok s vid vp w o hcs hmc hnc hctx hk
      rw [hred]
      refine ⟨h.1, ?_, ?_, h.2.2.2⟩
      · rw [h.2.1]; rfl
      · unfold surf_state
        rw [h.2.2.1]
        rfl
  | none =>
      have hred : s.init_viewport vid o =
          GlutinWindowContext.init_viewport_surface
            { s with
              next_window_id := s.next_window_id + 1
              viewports := updateA s.viewports vid (vp.with_fresh_window s o) }
            vid (vp.with_fresh_window s o) (fresh_window s o) o := by
        simp [GlutinWindowContext.init_viewport, hv, hw, hfw]
      have hk1 : hasKey (updateA s.viewports vid (vp.with_fresh_window s o)) vid = true := by
        rw [hasKey_updateA]
        exact hk
      have h := init_surface_ok
        { s with
          next_window_id := s.next_window_id + 1
          viewports := updateA s.viewports vid (vp.with_fresh_window s o) }
        vid (vp.with_fresh_window s o) (fresh_window s o) o hcs hmc hnc (by exact hctx) hk1
      rw [hred]
      refine ⟨h.1, ?_, ?_, ?_⟩
      · rw [h.2.1]; rfl
      · unfold surf_state
        rw [h.2.2.1]
        rfl
      · intro k hkne
        rw [h.2.2.2 k hkne]
        exact lookupA_updateA_ne s.viewports vid k _ (Ne.symm hkne)

theorem resume_fold_ok (o : NativeOracle)
    (hfw : o.finalizeWindowOk = true) (hcs : o.createSurfaceOk = true)
    (hmc : o.makeCurrentOk = true) (hnc : o.makeNotCurrentOk = true) :
    ∀ (ids : List ViewportId) (s : GlutinWindowContext),
    (s.current_gl_context.isSome || s.not_current_gl_context) = true →
    (∀ id, id ∈ ids → hasKey s.viewports id = true) →
    (List.foldl (resume_step o) (s, none) ids).2 = none
    ∧ ((List.foldl (resume_step o) (s, none) ids).1.current_gl_context.isSome
        || (List.foldl (resume_step o) (s, none) ids).1.not_current_gl_context) = true
    ∧ (∀ k, hasKey (List.foldl (resume_step o) (s, none) ids).1.viewports k
        = hasKey s.viewports k)
    ∧ (∀ k, k ∈ ids →
        surf_state (List.foldl (resume_step o) (s, none) ids).1.viewports k = some true)
    ∧ (∀ k, surf_state s.viewports k = some true →
        surf_state (List.foldl (resume_step o) (s, none) ids).1.viewports k = some true) := by
  intro ids
  induction ids with
  | nil =>
      intro s hctx hkeys
      exact ⟨rfl, hctx, fun k => rfl, by simp, fun k h => h⟩
  | cons id t ih =>
      intro s hctx hkeys
      have hkid : hasKey s.viewports id = true := hkeys id (List.mem_cons_self _ _)
      have hio := init_viewport_ok s id o hfw hcs hmc hnc hctx hkid
      have hkinit : hasKey (s.init_viewport id o).1.viewports id = true := by
        have hc := hio.2.2.1
        unfold surf_state at hc
        unfold hasKey
        cases hl : lookupA (s.init_viewport id o).1.viewports id with
        | none => rw [hl] at hc; simp at hc
        | some v => rfl
      have hstep : resume_step o (s, none) id = s.init_viewport id o := rfl
      have hpair : s.init_viewport id o = ((s.init_viewport id o).1, (none : Option GlFail)) := by
        rw [← hio.1]
      rw [List.foldl_cons, hstep, hpair]
      have hctx2 : ((s.init_viewport id o).1.current_gl_context.isSome
          || (s.init_viewport id o).1.not_current_gl_context) = true := by
        rw [hio.2.1]
        rfl
      have hkeys2 : ∀ i, i ∈ t → hasKey (s.init_viewport id o).1.viewports i = true := by
        intro i hi
        by_cases hii : i = id
        · rw [hii]
          exact hkinit
        · unfold hasKey
          rw [hio.2.2.2 i hii]
          exact hkeys i (List.mem_cons_of_mem _ hi)
      obtain ⟨A, B, C, D, E⟩ := ih (s.init_viewport id o).1 hctx2 hkeys2
      refine ⟨A, B, ?_, ?_, ?_⟩
      · intro k
        rw [C k]
        by_cases hki : k = id
        · rw [hki, hkinit, hkid]
        · unfold hasKey
          rw [hio.2.2.2 k hki]
      · intro k hk2
        rcases List.mem_cons.mp hk2 with hke | hk3
        · rw [hke]
          exact E id hio.2.2.1
        · exact D k hk3
      · intro k hsurf
        by_cases hki : k = id
        · rw [hki]
          exact E id hio.2.2.1
        · apply E k
          unfold surf_state at hsurf ⊢
          rw [hio.2.2.2 k hki]
          exact hsurf

def exC7_child : Viewport :=
  { ids := { thisId := 1, parent := 0 }
    cls := ViewportClass.Deferred
    builder := { title := some "child", transparent := none, icon := none }
    info := ViewportInfo.empty
    screenshot_requested := false
    viewport_ui_cb := true
    gl_surface := none
    window := none
    egui_winit := none }

def exC7_state : GlutinWindowContext :=
  { current_gl_context := some 10
    not_current_gl_context := false
    viewports := [(0, exC3_vp), (1, exC7_child)]
    viewport_from_window := [(100, 0)]
    window_from_viewport := [(0, 100)]
    focused_viewport := some 0
    next_surface_id := 12
    next_window_id := 102
    surface_calls := [] }

/-- Claim C7, counterexample: viewport 1 has no surface before the suspend,
yet after suspend followed immediately by a successful resume it has one — the
resume pass gives a surface to every registered viewport lacking one, not only
to those that had one before the suspend. -/
theorem C7_fresh_child_gains_surface_cex :
    (lookupA exC7_state.viewports 1).map (fun vp => vp.gl_surface.isSome) = some false
    ∧ (lookupA ((exC7_state.on_suspend allOkOracle).1.on_resume allOkOracle).1.viewports 1).map
        (fun vp => vp.gl_surface.isSome) = some true := by
  decide

/-- Claim C7, amended: suspend followed immediately by a resume in which every
native call succeeds (given the process holds a context in one of its two
slots) yields a registry with unchanged key set in which every registered
viewport has a surface — those that had one before the suspend, and equally
those that did not. -/
theorem C7_resume_restores_every_surface (s : GlutinWindowContext) (o : NativeOracle)
    (hfw : o.finalizeWindowOk = true) (hcs : o.createSurfaceOk = true)
    (hmc : o.makeCurrentOk = true) (hnc : o.makeNotCurrentOk = true)
    (hctx : (s.current_gl_context.isSome || s.not_current_gl_context) = true) :
    ((s.on_suspend o).1.on_resume o).2 = none
    ∧ (∀ k, hasKey ((s.on_suspend o).1.on_resume o).1.viewports k = hasKey s.viewports k)
    ∧ (∀ k vp, lookupA ((s.on_suspend o).1.on_resume o).1.viewports k = some vp →
        vp.gl_surface.isSome = true) := by
  have hview := on_suspend_viewports s o
  have hctx1 := on_suspend_ctx_avail s o hnc hctx
  have hfilter : (s.on_suspend o).1.viewports.filter (fun p => p.2.gl_surface.isNone)
      = (s.on_suspend o).1.viewports := by
    rw [hview]
    apply List.filter_eq_self.mpr
    intro p hp
    obtain ⟨q, hq, hqe⟩ := List.mem_map.mp hp
    rw [← hqe]
    rfl
  have hkeys : ∀ id, id ∈ ((s.on_suspend o).1.viewports.filter
      (fun p => p.2.gl_surface.isNone)).map Prod.fst →
      hasKey (s.on_suspend o).1.viewports id = true := by
    intro id hid
    rw [hfilter] at hid
    exact hasKey_of_mem_keys _ _ hid
  have hkeq : ∀ k, hasKey (s.on_suspend o).1.viewports k = hasKey s.viewports k := by
    intro k
    unfold hasKey
    rw [hview, lookupA_map_val]
    cases lookupA s.viewports k <;> rfl
  have hre : (s.on_suspend o).1.on_resume o =
      List.foldl (resume_step o) ((s.on_suspend o).1, none)
        (((s.on_suspend o).1.viewports.filter (fun p => p.2.gl_surface.isNone)).map Prod.fst) :=
    rfl
  obtain ⟨A, B, C, D, E⟩ := resume_fold_ok o hfw hcs hmc hnc
    (((s.on_suspend o).1.viewports.filter (fun p => p.2.gl_surface.isNone)).map Prod.fst)
    (s.on_suspend o).1 hctx1 hkeys
  refine ⟨?_, ?_, ?_⟩
  · rw [hre]
    exact A
  · intro k
    rw [hre, C k, hkeq k]
  · intro k vp hl
    have hkk : hasKey ((s.on_suspend o).1.on_resume o).1.viewports k = true := by
      unfold hasKey
      rw [hl]
      rfl
    rw [hre] at hkk hl
    have hk1 : hasKey (s.on_suspend o).1.viewports k = true := by
      rw [← C k]
      exact hkk
    have hmem : k ∈ ((s.on_suspend o).1.viewports.filter
        (fun p => p.2.gl_surface.isNone)).map Prod.fst := by
      rw [hfilter]
      exact mem_keys_of_hasKey _ _ hk1
    have hd := D k hmem
    unfold surf_state at hd
    rw [hl] at hd
    simpa using hd

/-- Witness for claim C7 at a concrete two-viewport registry with the context
current: the composed suspend-resume succeeds and the root entry stays
registered. -/
theorem C7_resume_restores_every_surface_witness :
    ((exC7_state.on_suspend allOkOracle).1.on_resume allOkOracle).2 = none
    ∧ hasKey ((exC7_state.on_suspend allOkOracle).1.on_resume allOkOracle).1.viewports 0
        = hasKey exC7_state.viewports 0 := by
  have h := C7_resume_restores_every_surface exC7_state allOkOracle
    (by decide) (by decide) (by decide) (by decide) (by decide)
  exact ⟨h.1, h.2.1 0⟩
